import Mathlib

/-!
Verification of the todo HTTP service (src/main.go) against its
natural-language specification.

The embedding models, from the source:
  - the persisted document shape `todoModel` and the wire shape `todo`;
  - the bson ObjectId hex codec used through `bson.IsObjectIdHex`,
    `bson.ObjectIdHex` and `ObjectId.Hex` (standard hex over 12 bytes,
    decoding accepts both letter cases, encoding emits lowercase, exactly
    as Go encoding/hex does);
  - the four data handlers `fetchTodos`, `createTodo`, `updateTodo`,
    `deleteTodo`, each returning the ordered list of JSON writes it
    performs, the resulting store state and the trace of store calls.

The document store engine (MongoDB reached through mgo) is external to
the repository, so the store operations are modelled from the spec,
section 4.1; their definitions say so in their doc comments.

Nondeterministic inputs of the real system are explicit parameters:
the freshly generated identifier, the current time, and whether a store
call fails in transport (and with which underlying error).
-/

namespace Todo

/-- A byte, kept as a `Nat`; the identifier invariant `idWf` bounds it. -/
abbrev Byte := Nat

/-- Internal identifier type: the twelve bytes of a bson ObjectId. -/
abbrev ObjectId := List Byte

/-- Well-formed identifier: twelve bytes, each below 256. -/
def idWf (id : ObjectId) : Prop := id.length = 12 ∧ ∀ b ∈ id, b < 256

/-- Value of one hex digit, embedding Go fromHexChar: ranges 0-9, a-f, A-F
over the character code. -/
def hexDigitVal (c : Char) : Option Nat :=
  if 48 ≤ c.toNat ∧ c.toNat ≤ 57 then some (c.toNat - 48)
  else if 97 ≤ c.toNat ∧ c.toNat ≤ 102 then some (c.toNat - 97 + 10)
  else if 65 ≤ c.toNat ∧ c.toNat ≤ 70 then some (c.toNat - 65 + 10)
  else none

/-- Lowercase hex digit for a value below 16, embedding Go hex encoding
(the digits 0-9 then a-f). -/
def hexDigitChar (n : Nat) : Char :=
  if n < 10 then Char.ofNat (48 + n) else Char.ofNat (97 + (n - 10))

/-- The two lowercase hex characters of one byte, high digit first. -/
def byteToHex (b : Byte) : List Char :=
  [hexDigitChar (b / 16), hexDigitChar (b % 16)]

/-- Hex-decode a character list two characters at a time, high digit
first; `none` on an odd length or a non-hex character. Embeds the
successful path of Go hex.DecodeString. -/
def hexDecodeChars : List Char → Option (List Byte)
  | [] => some []
  | [_] => none
  | c1 :: c2 :: rest =>
    match hexDigitVal c1, hexDigitVal c2, hexDecodeChars rest with
    | some h, some l, some tl => some ((16 * h + l) :: tl)
    | _, _, _ => none

/-- Embeds `ObjectId.Hex`: the lowercase hex string of the twelve bytes. -/
def objectIdHexStr (id : ObjectId) : String :=
  String.mk (id.map byteToHex).flatten

/-- Embeds `bson.IsObjectIdHex`: the string has exactly 24 characters and
decodes fully (Go checks that the decoded length is 12). -/
def isObjectIdHex (s : String) : Bool :=
  s.length == 24 && (hexDecodeChars s.toList).isSome

/-- Embeds `bson.ObjectIdHex` on inputs that passed `isObjectIdHex`
(elsewhere the Go function panics; the handlers only call it after the
check, so the default branch is never reached there). -/
def objectIdHex (s : String) : ObjectId :=
  (hexDecodeChars s.toList).getD []

/-- Embeds the Go struct `todoModel`: the persisted document.
`time.Time` is modelled as a `Nat` timestamp. -/
structure todoModel where
  ID : ObjectId
  Title : String
  Completed : Bool
  CreatedAt : Nat
deriving DecidableEq, Repr

/-- Embeds the Go struct `todo`: the wire form with a string identifier. -/
structure todo where
  ID : String
  Title : String
  Completed : Bool
  CreatedAt : Nat
deriving DecidableEq, Repr

/-- The single collection of documents, in insertion order. -/
abbrev Store := List todoModel

/-- Modelled from the spec: section 4.1 `listAll()` returns the ordered
sequence of stored documents. The store engine (MongoDB via mgo) is not
part of the repository source. -/
def listAll (st : Store) : List todoModel := st

/-- Modelled from the spec: section 4.1 `insert(doc)` stores the document.
The store engine (MongoDB via mgo) is not part of the repository source. -/
def insertDoc (st : Store) (d : todoModel) : Store := st ++ [d]

/-- Modelled from the spec: section 4.1 `updateByID(id, fields)` replaces
title and completed of the document matching id, and is a no-op success
when no document matches. The store engine (MongoDB via mgo) is not part
of the repository source. -/
def updateByID (st : Store) (id : ObjectId) (title : String) (completed : Bool) : Store :=
  st.map fun d => if d.ID = id then { d with Title := title, Completed := completed } else d

/-- Modelled from the spec: section 4.1 `deleteByID(id)` removes the
matching document and succeeds even when none matched. The store engine
(MongoDB via mgo) is not part of the repository source. -/
def deleteByID (st : Store) (id : ObjectId) : Store :=
  st.filter fun d => d.ID ≠ id

/-- Embeds `unicode.IsSpace` from the Go standard library: the
White_Space code points that `strings.TrimSpace` strips. -/
def isSpaceChar (c : Char) : Bool :=
  let n := c.toNat
  n == 9 || n == 10 || n == 11 || n == 12 || n == 13 || n == 32 ||
  n == 0x85 || n == 0xA0 || n == 0x1680 || (0x2000 ≤ n && n ≤ 0x200A) ||
  n == 0x2028 || n == 0x2029 || n == 0x202F || n == 0x205F || n == 0x3000

/-- Embeds `strings.TrimSpace`: drop the space characters at both ends. -/
def trimSpace (s : String) : String :=
  String.mk (((s.toList.dropWhile isSpaceChar).reverse.dropWhile isSpaceChar).reverse)

/-- One store call issued by a handler, in order of issue. -/
inductive StoreOp where
  | findAll
  | insertOne (d : todoModel)
  | updateOne (id : ObjectId) (title : String) (completed : Bool)
  | removeOne (id : ObjectId)
deriving DecidableEq, Repr

/-- The JSON payload shapes the handlers pass to `rnd.JSON`. -/
inductive Payload where
  | msg (message : String)
  | msgErr (message : String) (error : String)
  | rawErr (error : String)
  | data (todos : List todo)
  | created (message : String) (todo_id : String)
deriving DecidableEq, Repr

/-- One `rnd.JSON(w, status, payload)` call. -/
structure JsonWrite where
  status : Nat
  payload : Payload
deriving DecidableEq, Repr

def statusProcessing : Nat := 102
def statusOK : Nat := 200
def statusCreated : Nat := 201
def statusBadRequest : Nat := 400

/-- Result of running one handler: the JSON writes it performed in order,
the store state afterwards, and the store calls it issued in order. -/
structure HResult where
  writes : List JsonWrite
  store : Store
  ops : List StoreOp
deriving DecidableEq, Repr

/-- The HTTP status actually sent: a Go handler that returns without
writing gets the implicit 200 from net/http; otherwise the status of the
first write stands. -/
def respStatus (r : HResult) : Nat :=
  match r.writes with
  | [] => 200
  | w :: _ => w.status

/-- The wire view of one document, as built in the fetch loop:
hex-encoded identifier, title, completed, createdAt. -/
def viewOf (t : todoModel) : todo :=
  { ID := objectIdHexStr t.ID, Title := t.Title
    Completed := t.Completed, CreatedAt := t.CreatedAt }

/-- Embeds `fetchTodos` (src/main.go lines 61-86). `findErr` injects a
transport failure of the Find call, carrying the underlying error. -/
def fetchTodos (st : Store) (findErr : Option String) : HResult :=
  match findErr with
  | some err =>
    { writes := [⟨statusProcessing, .msgErr "Error fetching todos" err⟩]
      store := st, ops := [.findAll] }
  | none =>
    { writes := [⟨statusOK, .data ((listAll st).map viewOf)⟩]
      store := st, ops := [.findAll] }

/-- Embeds `createTodo` (src/main.go lines 88-122). The body is the
decode result (`Except.error` carries the decode error); `newId` is the
identifier `bson.NewObjectId()` generates and `now` the current time;
`insErr` injects a transport failure of the Insert call. -/
def createTodo (st : Store) (body : Except String todo) (newId : ObjectId)
    (now : Nat) (insErr : Option String) : HResult :=
  match body with
  | .error e => { writes := [⟨statusProcessing, .rawErr e⟩], store := st, ops := [] }
  | .ok t =>
    if t.Title = "" then
      { writes := [⟨statusBadRequest, .msg "Title is required"⟩], store := st, ops := [] }
    else
      let tm : todoModel := { ID := newId, Title := t.Title, Completed := false, CreatedAt := now }
      match insErr with
      | some err =>
        { writes := [⟨statusProcessing, .msgErr "Error creating todo" err⟩]
          store := st, ops := [.insertOne tm] }
      | none =>
        { writes := [⟨statusCreated, .created "Todo created successfully" (objectIdHexStr tm.ID)⟩]
          store := insertDoc st tm, ops := [.insertOne tm] }

/-- Embeds `deleteTodo` (src/main.go lines 124-146): trim the route
parameter, validate it, then RemoveId. `remErr` injects a transport
failure of the Remove call. (Line 135 of the source names the validated
identifier `todoID`; the trimmed `id` is meant.) -/
def deleteTodo (st : Store) (rawId : String) (remErr : Option String) : HResult :=
  let id := trimSpace rawId
  if !isObjectIdHex id then
    { writes := [⟨statusBadRequest, .msg "Invalid todo id"⟩], store := st, ops := [] }
  else
    match remErr with
    | some err =>
      { writes := [⟨statusProcessing, .msgErr "Error deleting todo" err⟩]
        store := st, ops := [.removeOne (objectIdHex id)] }
    | none =>
      { writes := [⟨statusOK, .msg "Todo deleted successfully"⟩]
        store := deleteByID st (objectIdHex id), ops := [.removeOne (objectIdHex id)] }

/-- Embeds `updateTodo` (src/main.go lines 148-182): trim and validate
the route parameter, decode the body, reject an empty title, then Update
with the title and completed fields only. On success the source returns
without writing any response (lines 172-182 end the function after the
error branch). `updErr` injects a transport failure of the Update call. -/
def updateTodo (st : Store) (rawId : String) (body : Except String todo)
    (updErr : Option String) : HResult :=
  let id := trimSpace rawId
  if !isObjectIdHex id then
    { writes := [⟨statusBadRequest, .msg "Invalid todo id"⟩], store := st, ops := [] }
  else
    match body with
    | .error e => { writes := [⟨statusProcessing, .rawErr e⟩], store := st, ops := [] }
    | .ok t =>
      if t.Title = "" then
        { writes := [⟨statusBadRequest, .msg "Title is required"⟩], store := st, ops := [] }
      else
        match updErr with
        | some err =>
          { writes := [⟨statusProcessing, .msgErr "Error updating todo" err⟩]
            store := st, ops := [.updateOne (objectIdHex id) t.Title t.Completed] }
        | none =>
          { writes := []
            store := updateByID st (objectIdHex id) t.Title t.Completed
            ops := [.updateOne (objectIdHex id) t.Title t.Completed] }

/-- Is the character an uppercase hex letter (A-F)? The canonical
(lowercase) encoding avoids exactly these. -/
def isUpperHexLetter (c : Char) : Bool :=
  65 ≤ c.toNat && c.toNat ≤ 70

lemma hexDigitVal_lt {c : Char} {v : Nat} (h : hexDigitVal c = some v) : v < 16 := by
  unfold hexDigitVal at h
  split_ifs at h <;> simp_all <;> omega

lemma hexDigitChar_inv {c : Char} {v : Nat} (h : hexDigitVal c = some v)
    (hc : isUpperHexLetter c = false) : hexDigitChar v = c := by
  unfold hexDigitVal at h
  unfold isUpperHexLetter at hc
  split_ifs at h with h1 h2 h3
  · injection h with h
    subst h
    unfold hexDigitChar
    rw [if_pos (by omega)]
    rw [show 48 + (c.toNat - 48) = c.toNat by omega, Char.ofNat_toNat]
  · injection h with h
    subst h
    unfold hexDigitChar
    rw [if_neg (by omega)]
    rw [show 97 + (c.toNat - 97 + 10 - 10) = c.toNat by omega, Char.ofNat_toNat]
  · exfalso
    simp only [Bool.and_eq_false_iff, decide_eq_false_iff_not] at hc
    omega

lemma byteToHex_of_digits {c1 c2 : Char} {hv lv : Nat}
    (h1 : hexDigitVal c1 = some hv) (h2 : hexDigitVal c2 = some lv)
    (u1 : isUpperHexLetter c1 = false) (u2 : isUpperHexLetter c2 = false) :
    byteToHex (16 * hv + lv) = [c1, c2] := by
  have hlt1 := hexDigitVal_lt h1
  have hlt2 := hexDigitVal_lt h2
  unfold byteToHex
  rw [show (16 * hv + lv) / 16 = hv by omega, show (16 * hv + lv) % 16 = lv by omega,
    hexDigitChar_inv h1 u1, hexDigitChar_inv h2 u2]

lemma hexDecodeChars_cons_inv {c1 c2 : Char} {rest : List Char} {bs : List Byte}
    (h : hexDecodeChars (c1 :: c2 :: rest) = some bs) :
    ∃ hv lv tl, hexDigitVal c1 = some hv ∧ hexDigitVal c2 = some lv ∧
      hexDecodeChars rest = some tl ∧ bs = (16 * hv + lv) :: tl := by
  unfold hexDecodeChars at h
  split at h
  · rename_i hv lv tl e1 e2 e3
    exact ⟨hv, lv, tl, e1, e2, e3, by injection h with h; exact h.symm⟩
  · exact absurd h (by simp)

lemma decode_flatten : ∀ (cs : List Char) (bs : List Byte),
    hexDecodeChars cs = some bs →
    (∀ c ∈ cs, isUpperHexLetter c = false) →
    (bs.map byteToHex).flatten = cs
  | [], bs, hdec, _ => by
    unfold hexDecodeChars at hdec
    injection hdec with hdec
    subst hdec
    rfl
  | [c], bs, hdec, _ => by
    exact absurd hdec (by unfold hexDecodeChars; simp)
  | c1 :: c2 :: rest, bs, hdec, hcan => by
    obtain ⟨hv, lv, tl, e1, e2, e3, rfl⟩ := hexDecodeChars_cons_inv hdec
    have ih := decode_flatten rest tl e3 (fun c hc => hcan c (by simp [hc]))
    have hb := byteToHex_of_digits e1 e2 (hcan c1 (by simp)) (hcan c2 (by simp))
    simp [hb, ih]

lemma updateByID_no_match : ∀ (st : Store) (id : ObjectId) (ti : String) (co : Bool),
    (∀ d ∈ st, d.ID ≠ id) → updateByID st id ti co = st
  | [], _, _, _, _ => rfl
  | d :: tl, id, ti, co, h => by
    have hd : d.ID ≠ id := h d (by simp)
    have ih := updateByID_no_match tl id ti co (fun x hx => h x (by simp [hx]))
    simp only [updateByID, List.map_cons, if_neg hd] at ih ⊢
    rw [ih]

lemma deleteByID_no_match : ∀ (st : Store) (id : ObjectId),
    (∀ d ∈ st, d.ID ≠ id) → deleteByID st id = st
  | [], _, _ => rfl
  | d :: tl, id, h => by
    have hd : d.ID ≠ id := h d (by simp)
    have ih := deleteByID_no_match tl id (fun x hx => h x (by simp [hx]))
    simp only [deleteByID] at ih ⊢
    rw [List.filter_cons_of_pos (by simpa using hd), ih]

/-- Claim C1: a successful Update (valid identifier, parseable body,
non-empty title, store success) leaves the identifier column and the
createdAt column of the store unchanged, and rewrites the store by
changing exactly the title and completed fields of the documents
matching the requested identifier. -/
theorem C1_update_frame (st : Store) (rawId : String) (t : todo)
    (hid : isObjectIdHex (trimSpace rawId) = true) (ht : t.Title ≠ "") :
    (updateTodo st rawId (Except.ok t) none).store.map todoModel.ID = st.map todoModel.ID ∧
    (updateTodo st rawId (Except.ok t) none).store.map todoModel.CreatedAt =
      st.map todoModel.CreatedAt ∧
    (updateTodo st rawId (Except.ok t) none).store =
      st.map (fun d => if d.ID = objectIdHex (trimSpace rawId)
        then { d with Title := t.Title, Completed := t.Completed } else d) := by
  have hst : (updateTodo st rawId (Except.ok t) none).store =
      updateByID st (objectIdHex (trimSpace rawId)) t.Title t.Completed := by
    simp [updateTodo, hid, ht]
  refine ⟨?_, ?_, hst⟩
  · rw [hst]
    unfold updateByID
    rw [List.map_map]
    apply List.map_congr_left
    intro d _
    simp only [Function.comp_apply]
    split <;> rfl
  · rw [hst]
    unfold updateByID
    rw [List.map_map]
    apply List.map_congr_left
    intro d _
    simp only [Function.comp_apply]
    split <;> rfl

/-- Claim C1 witness: the frame theorem evaluated on a one-document
store whose document is the target of the update. -/
theorem C1_update_frame_witness :
    isObjectIdHex (trimSpace "aaaaaaaaaaaaaaaaaaaaaaaa") = true ∧
    (("new" : String) ≠ "") ∧
    ((updateTodo [⟨List.replicate 12 170, "old", false, 5⟩] "aaaaaaaaaaaaaaaaaaaaaaaa"
        (Except.ok ⟨"", "new", true, 9⟩) none).store.map todoModel.ID =
      [⟨List.replicate 12 170, "old", false, 5⟩].map todoModel.ID ∧
     (updateTodo [⟨List.replicate 12 170, "old", false, 5⟩] "aaaaaaaaaaaaaaaaaaaaaaaa"
        (Except.ok ⟨"", "new", true, 9⟩) none).store.map todoModel.CreatedAt =
      [⟨List.replicate 12 170, "old", false, 5⟩].map todoModel.CreatedAt ∧
     (updateTodo [⟨List.replicate 12 170, "old", false, 5⟩] "aaaaaaaaaaaaaaaaaaaaaaaa"
        (Except.ok ⟨"", "new", true, 9⟩) none).store =
      [⟨List.replicate 12 170, "old", false, 5⟩].map
        (fun d => if d.ID = objectIdHex (trimSpace "aaaaaaaaaaaaaaaaaaaaaaaa")
          then { d with Title := "new", Completed := true } else d)) :=
  ⟨by decide, by decide,
    C1_update_frame [⟨List.replicate 12 170, "old", false, 5⟩] "aaaaaaaaaaaaaaaaaaaaaaaa"
      ⟨"", "new", true, 9⟩ (by decide) (by decide)⟩

/-- Claim C2 counterexample: a fully successful update (valid identifier
matching the stored document, parseable body, non-empty title, store
success) writes no response at all, so no success response is written;
only the implicit empty 200 of net/http reaches the client. -/
theorem C2_counterexample :
    (updateTodo [⟨List.replicate 12 170, "old", false, 5⟩] "aaaaaaaaaaaaaaaaaaaaaaaa"
      (Except.ok ⟨"", "milk", true, 0⟩) none).writes = [] := by
  decide

/-- Claim C2 (amended): on a successful update the handler writes
nothing and the response is the implicit 200 empty response; on store
failure it writes an error payload carrying a message and the
underlying error. -/
theorem C2_update_responses (st : Store) (rawId : String) (t : todo)
    (hid : isObjectIdHex (trimSpace rawId) = true) (ht : t.Title ≠ "") :
    (updateTodo st rawId (Except.ok t) none).writes = [] ∧
    respStatus (updateTodo st rawId (Except.ok t) none) = 200 ∧
    ∀ err, (updateTodo st rawId (Except.ok t) (some err)).writes =
      [⟨statusProcessing, Payload.msgErr "Error updating todo" err⟩] := by
  refine ⟨?_, ?_, fun err => ?_⟩ <;> simp [updateTodo, respStatus, hid, ht]

/-- Claim C2 witness: the amended update-response theorem evaluated on a
concrete store and request. -/
theorem C2_update_responses_witness :
    isObjectIdHex (trimSpace "aaaaaaaaaaaaaaaaaaaaaaaa") = true ∧
    (("milk" : String) ≠ "") ∧
    ((updateTodo [⟨List.replicate 12 170, "old", false, 5⟩] "aaaaaaaaaaaaaaaaaaaaaaaa"
        (Except.ok ⟨"", "milk", true, 0⟩) none).writes = [] ∧
     respStatus (updateTodo [⟨List.replicate 12 170, "old", false, 5⟩] "aaaaaaaaaaaaaaaaaaaaaaaa"
        (Except.ok ⟨"", "milk", true, 0⟩) none) = 200 ∧
     ∀ err, (updateTodo [⟨List.replicate 12 170, "old", false, 5⟩] "aaaaaaaaaaaaaaaaaaaaaaaa"
        (Except.ok ⟨"", "milk", true, 0⟩) (some err)).writes =
       [⟨statusProcessing, Payload.msgErr "Error updating todo" err⟩]) :=
  ⟨by decide, by decide,
    C2_update_responses [⟨List.replicate 12 170, "old", false, 5⟩] "aaaaaaaaaaaaaaaaaaaaaaaa"
      ⟨"", "milk", true, 0⟩ (by decide) (by decide)⟩

/-- Claim C3 counterexample: a whitespace-only title (a single blank)
passes the emptiness check, so the handler responds 201 and inserts a
document, against the claimed 400 and unchanged collection. -/
theorem C3_counterexample :
    respStatus (createTodo [] (Except.ok ⟨"", " ", true, 7⟩) (List.replicate 12 0) 3 none) = 201 ∧
    (createTodo [] (Except.ok ⟨"", " ", true, 7⟩) (List.replicate 12 0) 3 none).store ≠ [] := by
  decide

/-- Claim C3 (amended): only a title equal to the empty string is
rejected; then the handler responds 400 with the human-readable message
and issues no store call, leaving the collection unchanged. -/
theorem C3_empty_title_only (st : Store) (t : todo) (newId : ObjectId) (now : Nat)
    (insErr : Option String) (ht : t.Title = "") :
    createTodo st (Except.ok t) newId now insErr =
      { writes := [⟨statusBadRequest, Payload.msg "Title is required"⟩]
        store := st, ops := [] } := by
  simp [createTodo, ht]

/-- Claim C3 witness: the empty-title theorem evaluated on a concrete
request. -/
theorem C3_empty_title_only_witness :
    ((⟨"", "", true, 7⟩ : todo).Title = "") ∧
    createTodo [] (Except.ok ⟨"", "", true, 7⟩) (List.replicate 12 0) 3 none =
      { writes := [⟨statusBadRequest, Payload.msg "Title is required"⟩]
        store := [], ops := [] } :=
  ⟨by decide, C3_empty_title_only [] ⟨"", "", true, 7⟩ (List.replicate 12 0) 3 none (by decide)⟩

/-- Claim C4: on a well-formed identifier matching no stored document,
Update (with a valid body) reaches the implicit 200 success and leaves
the store unchanged, creating nothing; Delete responds 200 with its
confirmation message and also leaves the store unchanged. -/
theorem C4_missing_id (st : Store) (rawId : String) (t : todo)
    (hid : isObjectIdHex (trimSpace rawId) = true) (ht : t.Title ≠ "")
    (hmiss : ∀ d ∈ st, d.ID ≠ objectIdHex (trimSpace rawId)) :
    respStatus (updateTodo st rawId (Except.ok t) none) = 200 ∧
    (updateTodo st rawId (Except.ok t) none).store = st ∧
    (deleteTodo st rawId none).writes = [⟨statusOK, Payload.msg "Todo deleted successfully"⟩] ∧
    (deleteTodo st rawId none).store = st := by
  have h1 : (updateTodo st rawId (Except.ok t) none).store =
      updateByID st (objectIdHex (trimSpace rawId)) t.Title t.Completed := by
    simp [updateTodo, hid, ht]
  have h2 : (deleteTodo st rawId none).store = deleteByID st (objectIdHex (trimSpace rawId)) := by
    simp [deleteTodo, hid]
  refine ⟨by simp [updateTodo, respStatus, hid, ht], ?_, by simp [deleteTodo, hid], ?_⟩
  · rw [h1, updateByID_no_match st _ _ _ hmiss]
  · rw [h2, deleteByID_no_match st _ hmiss]

/-- Claim C4 witness: the missing-identifier theorem evaluated on a
one-document store and an identifier matching nothing. -/
theorem C4_missing_id_witness :
    isObjectIdHex (trimSpace "ffffffffffffffffffffffff") = true ∧
    (("x" : String) ≠ "") ∧
    (∀ d ∈ [(⟨List.replicate 12 0, "kept", false, 1⟩ : todoModel)],
      d.ID ≠ objectIdHex (trimSpace "ffffffffffffffffffffffff")) ∧
    (respStatus (updateTodo [⟨List.replicate 12 0, "kept", false, 1⟩] "ffffffffffffffffffffffff"
        (Except.ok ⟨"", "x", true, 0⟩) none) = 200 ∧
     (updateTodo [⟨List.replicate 12 0, "kept", false, 1⟩] "ffffffffffffffffffffffff"
        (Except.ok ⟨"", "x", true, 0⟩) none).store = [⟨List.replicate 12 0, "kept", false, 1⟩] ∧
     (deleteTodo [⟨List.replicate 12 0, "kept", false, 1⟩] "ffffffffffffffffffffffff" none).writes =
       [⟨statusOK, Payload.msg "Todo deleted successfully"⟩] ∧
     (deleteTodo [⟨List.replicate 12 0, "kept", false, 1⟩] "ffffffffffffffffffffffff" none).store =
       [⟨List.replicate 12 0, "kept", false, 1⟩]) :=
  ⟨by decide, by decide, by decide,
    C4_missing_id [⟨List.replicate 12 0, "kept", false, 1⟩] "ffffffffffffffffffffffff"
      ⟨"", "x", true, 0⟩ (by decide) (by decide) (by decide)⟩

/-- Claim C5 counterexample: an unparseable body makes Create respond
with status 102 (Processing) carrying the raw decode error, not with a
400 validation response. -/
theorem C5_counterexample :
    (createTodo [] (Except.error "invalid character") (List.replicate 12 0) 0 none).writes =
      [⟨102, Payload.rawErr "invalid character"⟩] ∧
    respStatus (createTodo [] (Except.error "invalid character") (List.replicate 12 0) 0 none) ≠ 400 := by
  decide

/-- Claim C5 (amended): on an unparseable body, Create, and Update past
a valid identifier, write the raw decode error with status 102
(Processing) and issue no store call. -/
theorem C5_malformed_body (st : Store) (e : String) (newId : ObjectId) (now : Nat)
    (insErr : Option String) (rawId : String) (updErr : Option String)
    (hid : isObjectIdHex (trimSpace rawId) = true) :
    createTodo st (Except.error e) newId now insErr =
      { writes := [⟨statusProcessing, Payload.rawErr e⟩], store := st, ops := [] } ∧
    updateTodo st rawId (Except.error e) updErr =
      { writes := [⟨statusProcessing, Payload.rawErr e⟩], store := st, ops := [] } :=
  ⟨rfl, by simp [updateTodo, hid]⟩

/-- Claim C5 witness: the malformed-body theorem evaluated on a concrete
decode failure. -/
theorem C5_malformed_body_witness :
    isObjectIdHex (trimSpace "aaaaaaaaaaaaaaaaaaaaaaaa") = true ∧
    (createTodo [] (Except.error "unexpected EOF") (List.replicate 12 0) 0 none =
      { writes := [⟨statusProcessing, Payload.rawErr "unexpected EOF"⟩], store := [], ops := [] } ∧
     updateTodo [] "aaaaaaaaaaaaaaaaaaaaaaaa" (Except.error "unexpected EOF") none =
      { writes := [⟨statusProcessing, Payload.rawErr "unexpected EOF"⟩], store := [], ops := [] }) :=
  ⟨by decide,
    C5_malformed_body [] "unexpected EOF" (List.replicate 12 0) 0 none
      "aaaaaaaaaaaaaaaaaaaaaaaa" none (by decide)⟩

/-- Claim C6 counterexample: a valid identifier padded with a trailing
blank is not a well-formed identifier encoding, yet Delete trims it,
accepts it, contacts the store and responds 200. -/
theorem C6_counterexample :
    isObjectIdHex "aaaaaaaaaaaaaaaaaaaaaaaa " = false ∧
    (deleteTodo [] "aaaaaaaaaaaaaaaaaaaaaaaa " none).ops ≠ [] ∧
    respStatus (deleteTodo [] "aaaaaaaaaaaaaaaaaaaaaaaa " none) = 200 := by
  decide

/-- Claim C6 (amended): when the whitespace-trimmed identifier string is
not a well-formed identifier encoding, Update and Delete respond 400
with the invalid-identifier message and issue no store call. -/
theorem C6_invalid_id (st : Store) (rawId : String) (body : Except String todo)
    (updErr remErr : Option String) (hid : isObjectIdHex (trimSpace rawId) = false) :
    updateTodo st rawId body updErr =
      { writes := [⟨statusBadRequest, Payload.msg "Invalid todo id"⟩], store := st, ops := [] } ∧
    deleteTodo st rawId remErr =
      { writes := [⟨statusBadRequest, Payload.msg "Invalid todo id"⟩], store := st, ops := [] } := by
  constructor <;> simp [updateTodo, deleteTodo, hid]

/-- Claim C6 witness: the invalid-identifier theorem evaluated on a
short non-hex identifier string. -/
theorem C6_invalid_id_witness :
    isObjectIdHex (trimSpace "zz") = false ∧
    (updateTodo [] "zz" (Except.ok ⟨"", "t", false, 0⟩) none =
      { writes := [⟨statusBadRequest, Payload.msg "Invalid todo id"⟩], store := [], ops := [] } ∧
     deleteTodo [] "zz" none =
      { writes := [⟨statusBadRequest, Payload.msg "Invalid todo id"⟩], store := [], ops := [] }) :=
  ⟨by decide, C6_invalid_id [] "zz" (Except.ok ⟨"", "t", false, 0⟩) none none (by decide)⟩

/-- Claim C9 counterexample: the string of 24 capital A characters is a
well-formed identifier encoding (the validity check accepts both letter
cases), yet decoding and re-encoding it yields the lowercase form, not
the original string. -/
theorem C9_counterexample :
    isObjectIdHex "AAAAAAAAAAAAAAAAAAAAAAAA" = true ∧
    objectIdHexStr (objectIdHex "AAAAAAAAAAAAAAAAAAAAAAAA") ≠ "AAAAAAAAAAAAAAAAAAAAAAAA" := by
  decide

/-- Claim C9 (amended): for every valid identifier string written in the
canonical lowercase alphabet (no A-F characters), decoding it to the
internal identifier and re-encoding yields the original string. -/
theorem C9_roundtrip_canonical (s : String) (hvalid : isObjectIdHex s = true)
    (hcanon : ∀ c ∈ s.toList, isUpperHexLetter c = false) :
    objectIdHexStr (objectIdHex s) = s := by
  unfold isObjectIdHex at hvalid
  rw [Bool.and_eq_true] at hvalid
  obtain ⟨bs, hbs⟩ := Option.isSome_iff_exists.mp hvalid.2
  unfold objectIdHex
  rw [hbs]
  show objectIdHexStr bs = s
  unfold objectIdHexStr
  rw [decode_flatten s.toList bs hbs hcanon]
  cases s
  rfl

/-- Claim C9 witness: the amended round-trip evaluated on a concrete
canonical identifier string. -/
theorem C9_roundtrip_canonical_witness :
    isObjectIdHex "0123456789abcdef01234567" = true ∧
    objectIdHexStr (objectIdHex "0123456789abcdef01234567") = "0123456789abcdef01234567" :=
  ⟨by decide, C9_roundtrip_canonical "0123456789abcdef01234567" (by decide) (by decide)⟩

/-- Claim C7: on store success the List handler responds 200 with a data
array holding exactly one view per stored document, in store order, each
view carrying the hex-encoded identifier, title, completed flag and
creation timestamp of its document; on store failure it responds with an
error payload holding a message and the underlying error. -/
theorem C7_list_mapping (st : Store) (err : String) :
    fetchTodos st none =
      { writes := [⟨statusOK, Payload.data (st.map viewOf)⟩]
        store := st, ops := [StoreOp.findAll] } ∧
    (st.map viewOf).length = st.length ∧
    (∀ t : todoModel, viewOf t =
      { ID := objectIdHexStr t.ID, Title := t.Title
        Completed := t.Completed, CreatedAt := t.CreatedAt }) ∧
    fetchTodos st (some err) =
      { writes := [⟨statusProcessing, Payload.msgErr "Error fetching todos" err⟩]
        store := st, ops := [StoreOp.findAll] } := by
  refine ⟨rfl, List.length_map st viewOf, fun t => rfl, rfl⟩

/-- Claim C8: a Create request with a parseable body and non-empty title
inserts exactly one document made of the freshly generated identifier,
the given title, completed false and the current time, whatever
identifier, completed flag or timestamp the body carried, and responds
201 with a success message and the hex encoding of the new identifier. -/
theorem C8_create_inserts (st : Store) (bid : String) (bco : Bool) (bca : Nat)
    (title : String) (newId : ObjectId) (now : Nat) (ht : title ≠ "") :
    createTodo st (Except.ok ⟨bid, title, bco, bca⟩) newId now none =
      { writes := [⟨statusCreated,
          Payload.created "Todo created successfully" (objectIdHexStr newId)⟩]
        store := st ++ [⟨newId, title, false, now⟩]
        ops := [StoreOp.insertOne ⟨newId, title, false, now⟩] } := by
  simp [createTodo, insertDoc, ht]

/-- Claim C8 witness: the create theorem evaluated on a concrete request
with a deviant body identifier and completed flag. -/
theorem C8_create_inserts_witness :
    ("buy milk" : String) ≠ "" ∧
    createTodo [] (Except.ok ⟨"ignored", "buy milk", true, 99⟩) (List.replicate 12 170) 7 none =
      { writes := [⟨statusCreated,
          Payload.created "Todo created successfully" (objectIdHexStr (List.replicate 12 170))⟩]
        store := [⟨List.replicate 12 170, "buy milk", false, 7⟩]
        ops := [StoreOp.insertOne ⟨List.replicate 12 170, "buy milk", false, 7⟩] } :=
  ⟨by decide, C8_create_inserts [] "ignored" true 99 "buy milk" (List.replicate 12 170) 7 (by decide)⟩

/-- Claim C10: with an empty store and a successful listAll, the List
handler responds 200 with a present, empty data array, the result list
being initialized empty before the mapping loop. -/
theorem C10_empty_list :
    fetchTodos [] none =
      { writes := [⟨statusOK, Payload.data []⟩], store := [], ops := [StoreOp.findAll] } := by
  rfl

end Todo
